import Mathlib

/-!
Verification of the AmpyFin Val valuation pipeline (Go sources).

The Go code is shallowly embedded: Go maps of dynamic values become
association lists over an explicit `Value` type, Go float64 arithmetic is
modelled over `ℚ`, fallible calls return `Except String`, and the two
external collaborators (the adapter fetch and the HTTP post to the remote
scoring service) are passed in as explicit function parameters.
-/

/-- A dynamic Go value (the `any` type) as it occurs in the pipeline rows:
strings and numbers. -/
inductive Value where
  | str : String → Value
  | num : ℚ → Value
deriving DecidableEq

/-- A Go `map[string]any` row, embedded as an association list with lookup
by first match (Go maps have unique keys). -/
abbrev Row := List (String × Value)

/-- Lookup of a key in a row, first match wins. -/
def lookupRow (k : String) : Row → Option Value
  | [] => none
  | kv :: rest => if kv.1 = k then some kv.2 else lookupRow k rest

/-- Go type assertion `v, _ := x.(string)`: a failed assertion or a missing
key yields the zero value `""`. -/
def asString : Option Value → String
  | some (.str s) => s
  | _ => ""

/-- Go type assertion `v, _ := x.(float64)`: a failed assertion or a missing
key yields the zero value `0`. -/
def asFloat : Option Value → ℚ
  | some (.num q) => q
  | _ => 0

/-! ## Adapter registry (src/go/internal/adapters/adapter.go) -/

/-- An `adapters.Adapter`: `Name()`, `Fields()` and `Fetch`. -/
structure Adapter where
  name : String
  fields : List String
  fetch : List String → Except String (List Row)

/-- The registry `map[string]Adapter`, embedded as a lookup function. -/
abbrev Registry := String → Option Adapter

/-- The empty registry. -/
def emptyRegistry : Registry := fun _ => none

/-- `adapters.Register`: `registry[a.Name()] = a` (map write, overwrites). -/
def Register (a : Adapter) (r : Registry) : Registry :=
  fun n => if n = a.name then some a else r n

/-- `adapters.Get`: map lookup by name. -/
def Get (name : String) (r : Registry) : Option Adapter :=
  r name

/-! ## splitCSV (src/go/internal/pipeline/run.go) -/

/-- The set Go `unicode.IsSpace` recognises (Unicode White_Space). -/
def isGoSpace (c : Char) : Bool :=
  let n := c.toNat
  (decide (0x09 ≤ n) && decide (n ≤ 0x0D)) || n == 0x20 || n == 0x85 ||
  n == 0xA0 || n == 0x1680 ||
  (decide (0x2000 ≤ n) && decide (n ≤ 0x200A)) || n == 0x2028 ||
  n == 0x2029 || n == 0x202F || n == 0x205F || n == 0x3000

/-- Go `strings.TrimSpace`: strip leading and trailing white space. -/
def trimSpace (l : List Char) : List Char :=
  ((l.dropWhile isGoSpace).reverse.dropWhile isGoSpace).reverse

/-- Go `strings.Split(s, ",")`: the substrings between commas, in order;
the empty string yields one empty substring. -/
def splitComma : List Char → List (List Char)
  | [] => [[]]
  | c :: rest =>
    if c = ',' then [] :: splitComma rest
    else
      match splitComma rest with
      | [] => [[c]]
      | p :: ps => (c :: p) :: ps

/-- `pipeline.splitCSV`: empty input returns nil; otherwise split on commas,
trim each part and keep the non-empty ones, in order. -/
def splitCSV (s : String) : List String :=
  if s = "" then []
  else
    ((((splitComma s.toList).map trimSpace).filter
        (fun p => p ≠ [])).map (fun l => String.mk l))

/-! ## Strategy evaluator (package strategies, src/unnamed/part_000) -/

/-- One outbound batch item: `{ticker, data}`. -/
structure EvalItem where
  ticker : String
  data : Row
deriving DecidableEq

/-- The outbound request `{strategy, items}`. -/
structure EvalRequest where
  strategy : String
  items : List EvalItem
deriving DecidableEq

/-- A decoded per-ticker result `{fair_value, inputs, notes, conf}`. -/
structure ResultModel where
  fairValue : ℚ
  inputs : Row
  notes : String
  conf : ℚ
deriving DecidableEq

/-- A decoded response item `{ticker, result}`. -/
structure EvalItemResp where
  ticker : String
  result : ResultModel
deriving DecidableEq

/-- The decoded response body `{items}`. -/
structure EvalResponse where
  items : List EvalItemResp
deriving DecidableEq

/-- `strategies.EvalResult`. -/
structure EvalResult where
  ticker : String
  fairValue : ℚ
  inputs : Row
  notes : String
  conf : ℚ
deriving DecidableEq

/-- Outcome of the HTTP POST to the scoring service: a transport error, or
a response with a status code and a decode outcome for its JSON body. -/
inductive PostOutcome where
  | transportError : String → PostOutcome
  | response : Nat → Except String EvalResponse → PostOutcome

/-- The request-building loop of `strategies.Eval`: one item per row whose
`ticker` field type-asserts to a non-empty string; the item data is the row
without its `ticker` key. -/
def buildItems : List Row → List EvalItem
  | [] => []
  | r :: rest =>
    let t := asString (lookupRow "ticker" r)
    if t = "" then buildItems rest
    else ⟨t, r.filter (fun kv => kv.1 != "ticker")⟩ :: buildItems rest

/-- `strategies.Eval`: build the batch request, POST it, fail on transport
error or status ≥ 300, otherwise decode and convert the response items.
The Go error message also renders the decoded error-body payload after the
status code; that trailing payload rendering is not modelled — the message
here is the constant prefix with the status. -/
def Eval (post : EvalRequest → PostOutcome) (strategy : String)
    (rows : List Row) : Except String (List EvalResult) :=
  let items := buildItems rows
  match post ⟨strategy, items⟩ with
  | .transportError e => .error e
  | .response status decoded =>
    if 300 ≤ status then
      .error ("strategy service error " ++ toString status)
    else
      match decoded with
      | .error e => .error e
      | .ok out => .ok (out.items.map fun it =>
          ⟨it.ticker, it.result.fairValue, it.result.inputs,
           it.result.notes, it.result.conf⟩)

/-! ## Console sink (package output, src/unnamed/part_001) -/

/-- What `ConsoleSink.Publish` prints, in structured form: whether the
"no results" line was printed, the sorted column list, and one rendered row
per item (a missing key renders as `none`). -/
structure ConsoleOutput where
  noResults : Bool
  cols : List String
  rows : List (List (Option Value))
deriving DecidableEq

/-- First-seen-order collection of all distinct keys across the items. -/
def collectCols (items : List Row) : List String :=
  items.foldl (fun acc r =>
    r.foldl (fun a kv => if kv.1 ∈ a then a else a ++ [kv.1]) acc) []

/-- Insert a string into a sorted list (model of `sort.Strings`). -/
def insertSorted (x : String) : List String → List String
  | [] => [x]
  | y :: ys => if x ≤ y then x :: y :: ys else y :: insertSorted x ys

/-- Sort a list of strings (model of `sort.Strings`). -/
def sortStrings (l : List String) : List String :=
  l.foldr insertSorted []

/-- `ConsoleSink.Publish`: an empty item list prints "no results" and
returns nil; otherwise the sorted union of keys becomes the header and each
item is rendered against it. The error component is always `none`. -/
def ConsolePublish (items : List Row) : ConsoleOutput × Option String :=
  if items.length = 0 then
    ({ noResults := true, cols := [], rows := [] }, none)
  else
    let cols := sortStrings (collectCols items)
    ({ noResults := false, cols := cols,
       rows := items.map (fun it => cols.map (fun k => lookupRow k it)) },
     none)

/-! ## Pipeline (src/go/internal/pipeline/run.go) -/

/-- `output.Mode` is a string type. -/
abbrev Mode := String

/-- `output.ModeConsole`. -/
def ModeConsole : Mode := "console"

/-- `output.ModeBroadcast`. -/
def ModeBroadcast : Mode := "broadcast"

/-- `output.ModeGUI`. -/
def ModeGUI : Mode := "gui"

/-- `pipeline.Options`. -/
structure Options where
  mode : Mode
  adapter : String
  strategy : String
  tickersCSV : String

/-- The `fairByTicker` map built from the evaluation results by successive
map writes (a later result for the same ticker overwrites). -/
def buildFairByTicker (evals : List EvalResult) : String → Option EvalResult :=
  evals.foldl (fun m e => fun t => if t = e.ticker then some e else m t)
    (fun _ => none)

/-- The published row literal built for one ticker in `pipeline.Run`. -/
def mkRow (t : String) (price fv mos : ℚ) (strategy notes : String)
    (conf : ℚ) : Row :=
  [("ticker", .str t), ("price", .num price), ("fair_value", .num fv),
   ("mos", .num mos), ("strategy", .str strategy), ("notes", .str notes),
   ("conf", .num conf)]

/-- The `final` building loop of `pipeline.Run`: a raw row whose ticker has
no evaluation result is skipped; otherwise the margin of safety is
`(fv - price) / fv` when `fv > 0` and `0` otherwise, and the published row
is assembled. -/
def buildFinal (strategy : String) (m : String → Option EvalResult) :
    List Row → List Row
  | [] => []
  | r :: rest =>
    let t := asString (lookupRow "ticker" r)
    let price := asFloat (lookupRow "price" r)
    match m t with
    | none => buildFinal strategy m rest
    | some ev =>
      let fv := ev.fairValue
      let mos := if 0 < fv then (fv - price) / fv else 0
      mkRow t price fv mos strategy ev.notes ev.conf ::
        buildFinal strategy m rest

/-- `pipeline.Run`: look up the adapter (not-found is fatal), fetch (a fetch
error is returned immediately), evaluate the strategy (an evaluation error
is returned immediately), build the final rows, then select the sink by
mode and publish. Broadcast and gui modes and unknown modes return errors. -/
def Run (registry : Registry) (post : EvalRequest → PostOutcome)
    (opts : Options) : Except String ConsoleOutput :=
  match Get opts.adapter registry with
  | none => .error ("adapter not found: " ++ opts.adapter)
  | some ad =>
    match ad.fetch (splitCSV opts.tickersCSV) with
    | .error e => .error e
    | .ok raw =>
      match Eval post opts.strategy raw with
      | .error e => .error e
      | .ok evals =>
        let m := buildFairByTicker evals
        let final := buildFinal opts.strategy m raw
        if opts.mode = ModeConsole then
          match ConsolePublish final with
          | (_, some e) => .error e
          | (out, none) => .ok out
        else if opts.mode = ModeBroadcast then
          .error "broadcast mode not yet implemented"
        else if opts.mode = ModeGUI then
          .error "gui mode not yet implemented"
        else
          .error "unknown mode"

/-! ## Claim theorems -/

/-- Claim C1: every published ticker row carries a margin of safety equal to
`(fair_value - price) / fair_value` when the fair value is strictly
positive, and `0` otherwise. -/
theorem C1_margin_of_safety (strategy : String)
    (m : String → Option EvalResult) (raw : List Row) (row : Row)
    (h : row ∈ buildFinal strategy m raw) :
    ∃ fv price, lookupRow "fair_value" row = some (.num fv) ∧
      lookupRow "price" row = some (.num price) ∧
      lookupRow "mos" row =
        some (.num (if 0 < fv then (fv - price) / fv else 0)) := by
  induction raw with
  | nil => simp [buildFinal] at h
  | cons r rest ih =>
    rw [buildFinal] at h
    revert h
    cases hm : m (asString (lookupRow "ticker" r)) with
    | none => intro h; exact ih h
    | some ev =>
      intro h
      rcases List.mem_cons.mp h with hrow | hrow
      · subst hrow
        exact ⟨ev.fairValue, asFloat (lookupRow "price" r), rfl, rfl, rfl⟩
      · exact ih hrow

/-- The evaluation-result map used by the C1 witness run. -/
def mC1 : String → Option EvalResult :=
  buildFairByTicker [⟨"AAPL", 30, [], "peg", 1⟩]

/-- The raw fetch rows of the C1 witness run. -/
def rawC1 : List Row := [[("ticker", Value.str "AAPL"), ("price", Value.num 10)]]

/-- The row published by the C1 witness run. -/
def rowC1 : Row := mkRow "AAPL" 10 30 ((30 - 10) / 30) "peter_lynch" "peg" 1

/-- Witness for C1 at a concrete run: fair value 30, price 10,
margin of safety 2/3. -/
theorem C1_margin_of_safety_witness :
    rowC1 ∈ buildFinal "peter_lynch" mC1 rawC1 ∧
    (∃ fv price, lookupRow "fair_value" rowC1 = some (.num fv) ∧
      lookupRow "price" rowC1 = some (.num price) ∧
      lookupRow "mos" rowC1 =
        some (.num (if 0 < fv then (fv - price) / fv else 0))) :=
  have hmem : rowC1 ∈ buildFinal "peter_lynch" mC1 rawC1 := by
    rw [show buildFinal "peter_lynch" mC1 rawC1 = [rowC1] from rfl]
    exact List.mem_singleton.mpr rfl
  ⟨hmem, C1_margin_of_safety "peter_lynch" mC1 rawC1 rowC1 hmem⟩

/-- Claim C5: registering adapter `a` and then adapter `b` under the same
name leaves the registry looking exactly as if only `b` had been
registered; looking the shared name up returns `b`, the adapter registered
last. -/
theorem C5_register_last_wins (r : Registry) (a b : Adapter) (n : String)
    (h : a.name = b.name) :
    Get n (Register b (Register a r)) = Get n (Register b r) ∧
    Get b.name (Register b (Register a r)) = some b := by
  constructor
  · unfold Get Register
    by_cases hn : n = b.name
    · simp [hn]
    · have hna : n ≠ a.name := h ▸ hn
      simp [hn, hna]
  · simp [Get, Register]

/-- First adapter registered by the C5 witness. -/
def adapterA : Adapter := ⟨"mock", [], fun _ => .ok []⟩

/-- Second adapter registered by the C5 witness, same name as the first. -/
def adapterB : Adapter := ⟨"mock", ["ticker"], fun _ => .error "down"⟩

/-- Witness for C5: two concrete adapters both named "mock"; after both
registrations the lookup returns the second. -/
theorem C5_register_last_wins_witness :
    adapterA.name = adapterB.name ∧
    (Get "mock" (Register adapterB (Register adapterA emptyRegistry)) =
       Get "mock" (Register adapterB emptyRegistry) ∧
     Get adapterB.name (Register adapterB (Register adapterA emptyRegistry)) =
       some adapterB) :=
  ⟨rfl, C5_register_last_wins emptyRegistry adapterA adapterB "mock" rfl⟩

/-- Claim C7: publishing an empty record sequence to the console sink
succeeds (the error component is `none`) and the sink reports
"no results" (the `noResults` line is printed). -/
theorem C7_empty_publish :
    ConsolePublish [] = ({ noResults := true, cols := [], rows := [] }, none) :=
  rfl

/-- Claim C8: once a run reaches sink selection (adapter found, fetch and
evaluation succeeded), a broadcast or gui output mode makes the pipeline
return an explicit error naming the unimplemented mode, and any
unrecognized mode returns the explicit "unknown mode" error. -/
theorem C8_unimplemented_modes (registry : Registry)
    (post : EvalRequest → PostOutcome) (opts : Options) (ad : Adapter)
    (raw : List Row) (evals : List EvalResult)
    (hget : Get opts.adapter registry = some ad)
    (hfetch : ad.fetch (splitCSV opts.tickersCSV) = .ok raw)
    (heval : Eval post opts.strategy raw = .ok evals) :
    (opts.mode = ModeBroadcast →
      Run registry post opts = .error "broadcast mode not yet implemented") ∧
    (opts.mode = ModeGUI →
      Run registry post opts = .error "gui mode not yet implemented") ∧
    (opts.mode ≠ ModeConsole → opts.mode ≠ ModeBroadcast →
      opts.mode ≠ ModeGUI → Run registry post opts = .error "unknown mode") := by
  refine ⟨fun h1 => ?_, fun h1 => ?_, fun h1 h2 h3 => ?_⟩
  · simp [Run, hget, hfetch, heval, h1, ModeConsole, ModeBroadcast]
  · simp [Run, hget, hfetch, heval, h1, ModeConsole, ModeBroadcast, ModeGUI]
  · simp [Run, hget, hfetch, heval, h1, h2, h3]

/-- Adapter used by the C8 witness. -/
def adapterC8 : Adapter := ⟨"mock", [], fun _ => .ok []⟩

/-- Registry used by the C8 witness. -/
def regC8 : Registry := Register adapterC8 emptyRegistry

/-- Scoring-service stub used by the C8 witness. -/
def postC8 : EvalRequest → PostOutcome := fun _ => .response 200 (.ok ⟨[]⟩)

/-- Options used by the C8 witness: broadcast mode. -/
def optsC8 : Options := ⟨"broadcast", "mock", "peter_lynch", ""⟩

/-- Witness for C8: a concrete run in broadcast mode returns the explicit
"broadcast mode not yet implemented" error. -/
theorem C8_unimplemented_modes_witness :
    Get optsC8.adapter regC8 = some adapterC8 ∧
    Run regC8 postC8 optsC8 = .error "broadcast mode not yet implemented" :=
  ⟨rfl,
   (C8_unimplemented_modes regC8 postC8 optsC8 adapterC8 [] [] rfl rfl
     rfl).1 rfl⟩

/-- Adapter whose fetch fails, used by the C2 theorems. -/
def adapterC2 : Adapter := ⟨"mock", [], fun _ => .error "fetch failed"⟩

/-- Registry used by the C2 theorems. -/
def regC2 : Registry := Register adapterC2 emptyRegistry

/-- Scoring-service stub used by the C2 theorems. -/
def postC2 : EvalRequest → PostOutcome := fun _ => .response 200 (.ok ⟨[]⟩)

/-- Options used by the C2 theorems. -/
def optsC2 : Options := ⟨"console", "mock", "peter_lynch", "AAPL"⟩

/-- Counterexample to claim C2: the pipeline runs a single adapter, and a
fetch failure aborts the whole run. Here the configured adapter fails to
fetch and `Run` returns that error instead of recording a per-adapter
error and continuing: the run produces no output at all. -/
theorem C2_counterexample :
    Run regC2 postC2 optsC2 = .error "fetch failed" := rfl

/-- Claim C2 as amended: the pipeline uses exactly one adapter per run, and
a failure of that adapter's fetch aborts the run immediately — `Run`
returns the fetch error and no per-adapter error recording or continuation
exists. -/
theorem C2_fetch_error_aborts_run (registry : Registry)
    (post : EvalRequest → PostOutcome) (opts : Options) (ad : Adapter)
    (e : String) (hget : Get opts.adapter registry = some ad)
    (hfetch : ad.fetch (splitCSV opts.tickersCSV) = .error e) :
    Run registry post opts = .error e := by
  simp [Run, hget, hfetch]

/-- Witness for the amended C2 at a concrete run. -/
theorem C2_fetch_error_aborts_run_witness :
    Get optsC2.adapter regC2 = some adapterC2 ∧
    adapterC2.fetch (splitCSV optsC2.tickersCSV) = .error "fetch failed" ∧
    Run regC2 postC2 optsC2 = .error "fetch failed" :=
  ⟨rfl, rfl,
   C2_fetch_error_aborts_run regC2 postC2 optsC2 adapterC2 "fetch failed"
     rfl rfl⟩

/-- Adapter returning one AAPL row, used by the C4 counterexample. -/
def adapterC4 : Adapter :=
  ⟨"mock", ["ticker", "price"],
   fun _ => .ok [[("ticker", Value.str "AAPL"), ("price", Value.num 10)]]⟩

/-- Registry used by the C4 counterexample. -/
def regC4 : Registry := Register adapterC4 emptyRegistry

/-- Scoring-service stub returning zero results, used by the C4
counterexample. -/
def postC4 : EvalRequest → PostOutcome := fun _ => .response 200 (.ok ⟨[]⟩)

/-- Options used by the C4 counterexample. -/
def optsC4 : Options := ⟨"console", "mock", "peter_lynch", "AAPL"⟩

/-- Counterexample to claim C4: ticker AAPL is fetched but the strategy
produces no result for it. The ticker indeed yields no output record, but
the gap is not reported anywhere: the run succeeds, publishing the empty
"no results" output with no error report of any kind. -/
theorem C4_counterexample :
    Run regC4 postC4 optsC4 =
      .ok { noResults := true, cols := [], rows := [] } := rfl

/-- Claim C4 as amended: a fetched ticker for which no strategy produced a
result yields no output record — every published row belongs to a ticker
that has an evaluation result — but the gap is silently skipped, not
reported (the run succeeds with no error report, as the counterexample
shows). -/
theorem C4_no_result_ticker_silently_skipped (strategy : String)
    (m : String → Option EvalResult) (raw : List Row) (row : Row)
    (h : row ∈ buildFinal strategy m raw) :
    ∃ t ev, lookupRow "ticker" row = some (.str t) ∧ m t = some ev := by
  induction raw with
  | nil => simp [buildFinal] at h
  | cons r rest ih =>
    rw [buildFinal] at h
    revert h
    cases hm : m (asString (lookupRow "ticker" r)) with
    | none => intro h; exact ih h
    | some ev =>
      intro h
      rcases List.mem_cons.mp h with hrow | hrow
      · subst hrow
        exact ⟨asString (lookupRow "ticker" r), ev, rfl, hm⟩
      · exact ih hrow

/-- The evaluation-result map used by the amended-C4 witness. -/
def mC4 : String → Option EvalResult :=
  buildFairByTicker [⟨"MSFT", 50, [], "", 1⟩]

/-- The raw fetch rows of the amended-C4 witness. -/
def rawC4 : List Row := [[("ticker", Value.str "MSFT"), ("price", Value.num 20)]]

/-- The row published by the amended-C4 witness run. -/
def rowC4 : Row := mkRow "MSFT" 20 50 ((50 - 20) / 50) "peter_lynch" "" 1

/-- Witness for the amended C4 at a concrete run. -/
theorem C4_no_result_ticker_silently_skipped_witness :
    rowC4 ∈ buildFinal "peter_lynch" mC4 rawC4 ∧
    (∃ t ev, lookupRow "ticker" rowC4 = some (.str t) ∧ mC4 t = some ev) :=
  have hmem : rowC4 ∈ buildFinal "peter_lynch" mC4 rawC4 := by
    rw [show buildFinal "peter_lynch" mC4 rawC4 = [rowC4] from rfl]
    exact List.mem_singleton.mpr rfl
  ⟨hmem,
   C4_no_result_ticker_silently_skipped "peter_lynch" mC4 rawC4 rowC4 hmem⟩

/-- Scoring-service stub answering HTTP 101, used by the C3 counterexample. -/
def postC3 : EvalRequest → PostOutcome := fun _ => .response 101 (.ok ⟨[]⟩)

/-- Counterexample to claim C3: status 101 is not a 2xx status, yet the
evaluator treats the batch call as a success — the code only fails the
batch for a status of 300 or more. -/
theorem C3_counterexample :
    ¬ (200 ≤ 101 ∧ 101 ≤ 299) ∧ Eval postC3 "peter_lynch" [] = .ok [] :=
  ⟨by decide, rfl⟩

/-- Claim C3 as amended: a transport error or an HTTP status of 300 or more
fails the entire batch for that strategy — the evaluator returns that
single error, so no partial per-ticker results are produced from the call
(an informational status below 200 is, however, treated as success). -/
theorem C3_batch_atomic (post : EvalRequest → PostOutcome)
    (strategy : String) (rows : List Row) :
    (∀ e, post ⟨strategy, buildItems rows⟩ = .transportError e →
      Eval post strategy rows = .error e) ∧
    (∀ status decoded,
      post ⟨strategy, buildItems rows⟩ = .response status decoded →
      300 ≤ status →
      Eval post strategy rows =
        .error ("strategy service error " ++ toString status)) := by
  constructor
  · intro e h
    simp [Eval, h]
  · intro status decoded h hs
    simp [Eval, h, hs]

/-- Scoring-service stub answering HTTP 503, used by the C3 witness. -/
def postC3w : EvalRequest → PostOutcome :=
  fun _ => .response 503 (.error "bad body")

/-- Witness for the amended C3 at a concrete call: status 503 fails the
whole batch with a single error. -/
theorem C3_batch_atomic_witness :
    postC3w ⟨"psales_rev", buildItems []⟩ = .response 503 (.error "bad body") ∧
    300 ≤ 503 ∧
    Eval postC3w "psales_rev" [] =
      .error ("strategy service error " ++ toString 503) :=
  ⟨rfl, by decide,
   (C3_batch_atomic postC3w "psales_rev" []).2 503 (.error "bad body") rfl
     (by decide)⟩

/-- The ticker-list parsing as claim C9 words it: the comma-separated
segments, each with surrounding whitespace trimmed, empty segments
dropped, in input order. -/
def splitCSVSpec (s : String) : List String :=
  (((splitComma s.toList).map trimSpace).filter
      (fun p => p ≠ [])).map (fun l => String.mk l)

/-- Claim C9: `splitCSV` returns exactly the trimmed, non-empty
comma-separated segments in input order; the empty string parses to the
empty ticker list, and a run over no tickers proceeds to publish the empty
"no results" output rather than failing. -/
theorem C9_splitCSV :
    (∀ s, splitCSV s = splitCSVSpec s) ∧ splitCSV "" = [] ∧
    (∀ (registry : Registry) (post : EvalRequest → PostOutcome)
       (opts : Options) (ad : Adapter) (evals : List EvalResult),
      opts.tickersCSV = "" → opts.mode = ModeConsole →
      Get opts.adapter registry = some ad → ad.fetch [] = .ok [] →
      Eval post opts.strategy [] = .ok evals →
      Run registry post opts =
        .ok { noResults := true, cols := [], rows := [] }) := by
  refine ⟨?_, rfl, ?_⟩
  · intro s
    by_cases h : s = ""
    · subst h; rfl
    · simp [splitCSV, splitCSVSpec, h]
  · intro registry post opts ad evals h1 h2 h3 h4 h5
    have hsplit : splitCSV opts.tickersCSV = [] := by rw [h1]; rfl
    simp [Run, h3, hsplit, h4, h5, h2, ModeConsole, buildFinal, ConsolePublish]

/-- Adapter used by the C9 witness. -/
def adapterC9 : Adapter := ⟨"mock", [], fun _ => .ok []⟩

/-- Registry used by the C9 witness. -/
def regC9 : Registry := Register adapterC9 emptyRegistry

/-- Scoring-service stub used by the C9 witness. -/
def postC9 : EvalRequest → PostOutcome := fun _ => .response 200 (.ok ⟨[]⟩)

/-- Options used by the C9 witness: empty ticker list, console mode. -/
def optsC9 : Options := ⟨"console", "mock", "peter_lynch", ""⟩

/-- Witness for C9 at a concrete run over no tickers. -/
theorem C9_splitCSV_witness :
    optsC9.tickersCSV = "" ∧
    Run regC9 postC9 optsC9 =
      .ok { noResults := true, cols := [], rows := [] } :=
  ⟨rfl, C9_splitCSV.2.2 regC9 postC9 optsC9 adapterC9 [] rfl rfl rfl rfl rfl⟩

/-- The row filter claim C10 describes: keep exactly the rows whose
`ticker` field is present, a string, and non-empty. -/
def hasTickerField (r : Row) : Bool :=
  match lookupRow "ticker" r with
  | some (.str s) => !(s == "")
  | _ => false

/-- The outbound batch items as claim C10 words them: one item per kept
row, carrying the row's ticker and, as data, exactly the row's fields
minus the `ticker` key. -/
def buildItemsSpec (rows : List Row) : List EvalItem :=
  (rows.filter hasTickerField).map fun r =>
    ⟨asString (lookupRow "ticker" r), r.filter (fun kv => kv.1 != "ticker")⟩

/-- The code's row test agrees with the claim's: the type assertion yields
a non-empty string exactly when the `ticker` field is present, a string,
and non-empty. -/
theorem hasTickerField_asString (r : Row) :
    hasTickerField r = !(asString (lookupRow "ticker" r) == "") := by
  unfold hasTickerField asString
  cases lookupRow "ticker" r with
  | none => rfl
  | some v => cases v with
    | str s => rfl
    | num q => rfl

/-- Claim C10: the request builder of the evaluator emits one item per raw
row with a non-empty string `ticker` field, silently drops the other rows,
and sends as each item's data exactly the row minus its `ticker` key. -/
theorem C10_request_items : ∀ rows, buildItems rows = buildItemsSpec rows := by
  intro rows
  induction rows with
  | nil => rfl
  | cons r rest ih =>
    by_cases ht : asString (lookupRow "ticker" r) = ""
    · simp [buildItems, buildItemsSpec, List.filter_cons,
        hasTickerField_asString, ht, ih, buildItemsSpec]
    · simp [buildItems, buildItemsSpec, List.filter_cons,
        hasTickerField_asString, ht, ih, buildItemsSpec]

/-! ## Weighting engine (modelled from the spec) -/

/-- Modelled from the spec: the named weighting options of §4.5/§6
(low_margin_threshold, high_margin_threshold, negative_growth_penalty,
high-growth threshold and boost, default weights). The weighting engine
has no source under src/; it is embedded from the spec text. -/
structure WeightConfig where
  lowMargin : ℚ
  highMargin : ℚ
  negGrowthPenalty : ℚ
  highGrowthThreshold : ℚ
  highGrowthBoost : ℚ
  defaultGrowth : ℚ
  defaultReversion : ℚ

/-- Modelled from the spec: the per-ticker fundamentals consulted by the
weighting rule cascade — net margin, growth estimate and trailing
earnings; `none` is an absent field. -/
structure Fundamentals where
  netMargin : Option ℚ
  growth : Option ℚ
  epsTtm : Option ℚ

/-- Modelled from the spec: rule 3 trigger — trailing earnings negative or
absent. -/
def earningsBad (f : Fundamentals) : Bool :=
  match f.epsTtm with
  | none => true
  | some e => decide (e < 0)

/-- Modelled from the spec: rule 1 — the margin band picks the base pair of
(growth-sensitive, multiple-reversion) weights: 0.2/0.8 below the low
threshold, 0.8/0.2 above the high threshold, 0.6/0.4 in the medium band. -/
def marginBand (cfg : WeightConfig) (f : Fundamentals) : ℚ × ℚ :=
  match f.netMargin with
  | some nm =>
    if nm < cfg.lowMargin then (2/10, 8/10)
    else if cfg.highMargin < nm then (8/10, 2/10)
    else (6/10, 4/10)
  | none => (6/10, 4/10)

/-- Modelled from the spec: rule 2 — a negative growth estimate multiplies
the growth-sensitive weight by (1 - negative_growth_penalty); a growth
estimate above the high-growth threshold multiplies it by
(1 + high_growth_boost). -/
def growthAdjust (cfg : WeightConfig) (f : Fundamentals) (g : ℚ) : ℚ :=
  match f.growth with
  | some gr =>
    if gr < 0 then g * (1 - cfg.negGrowthPenalty)
    else if cfg.highGrowthThreshold < gr then g * (1 + cfg.highGrowthBoost)
    else g
  | none => g

/-- Modelled from the spec: the raw weight pair produced by the ordered
rule cascade of §4.5 before renormalization. Rule 5 falls back to the
configured default weights when neither margin nor growth is available;
the rule-3 earnings override (0.1/0.9) takes precedence over rules 1-2. -/
def rawWeights (cfg : WeightConfig) (f : Fundamentals) : ℚ × ℚ :=
  if f.netMargin = none ∧ f.growth = none then
    (cfg.defaultGrowth, cfg.defaultReversion)
  else if earningsBad f then (1/10, 9/10)
  else
    let b := marginBand cfg f
    (growthAdjust cfg f b.1, b.2)

/-- Modelled from the spec: rule 4 — renormalization over exactly the
participating strategies; a strategy with no result for the ticker
receives weight 0 and is excluded from the normalizing total. -/
def normalizeWeights (w : ℚ × ℚ) (pG pR : Bool) : ℚ × ℚ :=
  let g := if pG then w.1 else 0
  let r := if pR then w.2 else 0
  (g / (g + r), r / (g + r))

/-- Modelled from the spec: the per-ticker weight pair the weighting engine
assigns to the growth-sensitive and multiple-reversion strategies, given
which of the two produced a non-declined result. -/
def weightsFor (cfg : WeightConfig) (f : Fundamentals) (pG pR : Bool) :
    ℚ × ℚ :=
  normalizeWeights (rawWeights cfg f) pG pR

/-- Every branch of the margin band yields strictly positive weights. -/
theorem marginBand_pos (cfg : WeightConfig) (f : Fundamentals) :
    0 < (marginBand cfg f).1 ∧ 0 < (marginBand cfg f).2 := by
  rcases h : f.netMargin with _ | nm
  · simp [marginBand, h]
  · simp only [marginBand, h]
    split_ifs <;> norm_num

/-- The growth adjustment preserves positivity for a penalty below 1 and a
non-negative boost. -/
theorem growthAdjust_pos (cfg : WeightConfig) (f : Fundamentals) (g : ℚ)
    (hg : 0 < g) (hpen : cfg.negGrowthPenalty < 1)
    (hboost : 0 ≤ cfg.highGrowthBoost) :
    0 < growthAdjust cfg f g := by
  rcases h : f.growth with _ | gr
  · simpa [growthAdjust, h] using hg
  · simp only [growthAdjust, h]
    split_ifs with h1 h2
    · have hp : (0 : ℚ) < 1 - cfg.negGrowthPenalty := by linarith
      exact mul_pos hg hp
    · have hb : (0 : ℚ) < 1 + cfg.highGrowthBoost := by linarith
      exact mul_pos hg hb
    · exact hg

/-- The raw rule-cascade weights are strictly positive under sane
configuration. -/
theorem rawWeights_pos (cfg : WeightConfig) (f : Fundamentals)
    (hpen : cfg.negGrowthPenalty < 1) (hboost : 0 ≤ cfg.highGrowthBoost)
    (hdg : 0 < cfg.defaultGrowth) (hdr : 0 < cfg.defaultReversion) :
    0 < (rawWeights cfg f).1 ∧ 0 < (rawWeights cfg f).2 := by
  unfold rawWeights
  split_ifs with h1 h2
  · exact ⟨hdg, hdr⟩
  · norm_num
  · exact ⟨growthAdjust_pos cfg f _ (marginBand_pos cfg f).1 hpen hboost,
      (marginBand_pos cfg f).2⟩

/-- Renormalization over the participating strategies sums to 1 when the
raw weights are positive and at least one strategy participates. -/
theorem normalize_sum (w : ℚ × ℚ) (pG pR : Bool)
    (hg : 0 < w.1) (hr : 0 < w.2) (hpart : pG = true ∨ pR = true) :
    (normalizeWeights w pG pR).1 + (normalizeWeights w pG pR).2 = 1 := by
  unfold normalizeWeights
  cases pG with
  | false =>
    cases pR with
    | false => simp at hpart
    | true =>
      simp only [Bool.false_eq_true, if_false, if_true]
      rw [zero_add, zero_div, zero_add, div_self (ne_of_gt hr)]
  | true =>
    cases pR with
    | false =>
      simp only [Bool.false_eq_true, if_false, if_true]
      rw [add_zero, zero_div, add_zero, div_self (ne_of_gt hg)]
    | true =>
      simp only [if_true]
      rw [div_add_div_same, div_self (by positivity)]

/-- A non-participating growth-sensitive strategy receives weight 0. -/
theorem normalize_zeroG (w : ℚ × ℚ) (pR : Bool) :
    (normalizeWeights w false pR).1 = 0 := by
  simp [normalizeWeights]

/-- A non-participating multiple-reversion strategy receives weight 0. -/
theorem normalize_zeroR (w : ℚ × ℚ) (pG : Bool) :
    (normalizeWeights w pG false).2 = 0 := by
  simp [normalizeWeights]

/-- Claim C6: for a ticker with at least one participating strategy, the
renormalized per-ticker weights sum to 1, and a strategy with no result
receives weight 0 (and is excluded from the normalization by
construction). Modelled from the spec (§4.5); the weighting engine has no
source under src/. -/
theorem C6_weights_normalized (cfg : WeightConfig) (f : Fundamentals)
    (pG pR : Bool) (hpen : cfg.negGrowthPenalty < 1)
    (hboost : 0 ≤ cfg.highGrowthBoost) (hdg : 0 < cfg.defaultGrowth)
    (hdr : 0 < cfg.defaultReversion) (hpart : pG = true ∨ pR = true) :
    (weightsFor cfg f pG pR).1 + (weightsFor cfg f pG pR).2 = 1 ∧
    (pG = false → (weightsFor cfg f pG pR).1 = 0) ∧
    (pR = false → (weightsFor cfg f pG pR).2 = 0) := by
  obtain ⟨hg, hr⟩ := rawWeights_pos cfg f hpen hboost hdg hdr
  refine ⟨normalize_sum (rawWeights cfg f) pG pR hg hr hpart, ?_, ?_⟩
  · intro h; subst h; exact normalize_zeroG _ _
  · intro h; subst h; exact normalize_zeroR _ _

/-- Weighting options used by the C6 witness (the spec example values). -/
def cfgC6 : WeightConfig := ⟨1/20, 3/20, 3/10, 1/4, 1/10, 1/2, 1/2⟩

/-- Fundamentals used by the C6 witness: low margin, negative growth,
positive trailing earnings (the spec example of §8). -/
def fundC6 : Fundamentals := ⟨some (3/100), some (-(1/20)), some 2⟩

/-- Witness for C6 at the spec example: both strategies participate and the
renormalized weights sum to 1. -/
theorem C6_weights_normalized_witness :
    cfgC6.negGrowthPenalty < 1 ∧ 0 ≤ cfgC6.highGrowthBoost ∧
    0 < cfgC6.defaultGrowth ∧ 0 < cfgC6.defaultReversion ∧
    ((weightsFor cfgC6 fundC6 true true).1 +
        (weightsFor cfgC6 fundC6 true true).2 = 1 ∧
      (true = false → (weightsFor cfgC6 fundC6 true true).1 = 0) ∧
      (true = false → (weightsFor cfgC6 fundC6 true true).2 = 0)) :=
  ⟨by norm_num [cfgC6], by norm_num [cfgC6], by norm_num [cfgC6],
   by norm_num [cfgC6],
   C6_weights_normalized cfgC6 fundC6 true true (by norm_num [cfgC6])
     (by norm_num [cfgC6]) (by norm_num [cfgC6]) (by norm_num [cfgC6])
     (Or.inl rfl)⟩
